import Mathlib

/-
Shallow embedding of src/src/cpp/cpp_operations.cpp (together with its header
cpp_operations.hpp).  Double-precision values are modelled as rationals, so
that the arithmetic of the source loops is exact; C int values are modelled
as Int (no overflow is exercised by any claim), sizes and loop counters that
are provably non-negative as Nat.  The process-wide C++ global
last_error_message is modelled by threading an explicit String state through
every boundary function: each function takes the current error message and
returns the new one.  An opaque handle is modelled as Option resource, where
none is the null handle.  An out-parameter is modelled as an Option in the
result: some v means the callee wrote v through the pointer, none means it
left the target unwritten.  Fallible internal operations (std vector at,
which throws std::out_of_range, and Matrix::multiply, which throws
std::invalid_argument) are modelled as Option-returning functions; the
try/catch blocks of the boundary translate none into the corresponding
result code or sentinel, exactly as the source catch clauses do.
-/

namespace CppInterop

/-- Result code enumeration of the C boundary, CppResultCode in
cpp_operations.hpp. -/
inductive CppResultCode where
  | CPP_SUCCESS
  | CPP_NULL_POINTER
  | CPP_OUT_OF_BOUNDS
  | CPP_INVALID_OPERATION
  | CPP_MEMORY_ERROR
  | CPP_UNKNOWN_ERROR
deriving DecidableEq, Repr

/-- Integer value of each result code, as fixed by the enum in
cpp_operations.hpp. -/
def CppResultCode.toInt : CppResultCode → Int
  | .CPP_SUCCESS => 0
  | .CPP_NULL_POINTER => -1
  | .CPP_OUT_OF_BOUNDS => -2
  | .CPP_INVALID_OPERATION => -3
  | .CPP_MEMORY_ERROR => -4
  | .CPP_UNKNOWN_ERROR => -5

/-- Placeholder for the implementation-defined, non-empty what() text of the
std::out_of_range exception thrown by std::vector::at on a bad index.  The
exact text is not part of the source; the claims only rely on it being
non-empty. -/
def vectorAtMessage : String := "vector::_M_range_check"

/-- Exact what() text of the std::invalid_argument thrown by
Matrix::multiply on a shape mismatch (cpp_operations.cpp line 86). -/
def matrixMismatchMessage : String := "Matrix dimensions don\x27t match for multiplication"

/-- Reads the error channel: get_last_error_message returns the current
content of the global last_error_message. -/
def get_last_error_message (err : String) : String := err

/-- The Matrix class: a rows x cols grid of doubles stored as a vector of
row vectors, with the dimensions kept in separate fields rows_ and cols_. -/
structure Matrix where
  rows : Nat
  cols : Nat
  data : List (List ℚ)
deriving DecidableEq, Repr

/-- Well-formedness invariant of a Matrix established by its constructor and
preserved by set: the storage really has rows rows of cols entries each. -/
def Matrix.WF (m : Matrix) : Prop :=
  m.data.length = m.rows ∧ ∀ row ∈ m.data, row.length = m.cols

instance (m : Matrix) : Decidable m.WF := by
  unfold Matrix.WF; infer_instance

/-- The Matrix constructor: data.resize(rows, std::vector of cols zeros). -/
def Matrix.create (rows cols : Nat) : Matrix :=
  { rows := rows, cols := cols, data := List.replicate rows (List.replicate cols 0) }

/-- Unchecked element access data[i][j] (operator[]), as used inside
multiply and transpose where the indices are within the loop bounds; under
WF the defaults are never consulted. -/
def Matrix.entry (m : Matrix) (r c : Nat) : ℚ :=
  (m.data.getD r []).getD c 0

/-- Checked element access data.at(row).at(col) of Matrix::get: a negative
index (converted to an enormous size_t) or an index past the end makes at
throw std::out_of_range, modelled as none. -/
def Matrix.get? (m : Matrix) (row col : Int) : Option ℚ :=
  if 0 ≤ row ∧ 0 ≤ col then
    (m.data[row.toNat]?).bind fun rowList => rowList[col.toNat]?
  else none

/-- Checked element update data.at(row).at(col) = value of Matrix::set;
none models the std::out_of_range throw. -/
def Matrix.set? (m : Matrix) (row col : Int) (value : ℚ) : Option Matrix :=
  if 0 ≤ row ∧ 0 ≤ col then
    match m.data[row.toNat]? with
    | some rowList =>
        if col.toNat < rowList.length then
          some { m with data := m.data.set row.toNat (rowList.set col.toNat value) }
        else none
    | none => none
  else none

/-- The grid filled by the triple loop of Matrix::multiply: the result is
created with shape rows_ x other.cols_ and every cell (i, j) with i below
rows_ and j below other.cols_ is set exactly once to the accumulated sum
over k below cols_ of data[i][k] * other.data[k][j]. -/
def mulData (a b : Matrix) : List (List ℚ) :=
  (List.range a.rows).map fun i =>
    (List.range b.cols).map fun j =>
      (List.range a.cols).foldl (fun sum k => sum + a.entry i k * b.entry k j) 0

/-- Matrix::multiply: throws std::invalid_argument (modelled none) when
cols_ differs from other.rows_, otherwise returns the freshly allocated
product matrix. -/
def Matrix.multiply (a b : Matrix) : Option Matrix :=
  if a.cols ≠ b.rows then none
  else some { rows := a.rows, cols := b.cols, data := mulData a b }

/-- The grid filled by the double loop of Matrix::transpose: the result is
created with shape cols_ x rows_ and every cell (j, i) is set exactly once
to data[i][j]. -/
def transData (m : Matrix) : List (List ℚ) :=
  (List.range m.cols).map fun j =>
    (List.range m.rows).map fun i => m.entry i j

/-- Matrix::transpose: always returns the freshly allocated transposed
matrix. -/
def Matrix.transpose (m : Matrix) : Matrix :=
  { rows := m.cols, cols := m.rows, data := transData m }

/-- C boundary matrix_create: allocates a fresh Matrix (allocation failure
is not modelled) and never touches the error channel. -/
def matrix_create (rows cols : Nat) (err : String) : Option Matrix × String :=
  (some (Matrix.create rows cols), err)

/-- C boundary matrix_get: null handle yields the 0.0 sentinel with the
error channel untouched; an out-of-range index is caught and recorded. -/
def matrix_get (h : Option Matrix) (row col : Int) (err : String) : ℚ × String :=
  match h with
  | some m =>
      match m.get? row col with
      | some v => (v, err)
      | none => (0, vectorAtMessage)
  | none => (0, err)

/-- C boundary matrix_set: null handle is a no-op; an out-of-range index is
caught, leaving the matrix unchanged and recording the message. -/
def matrix_set (h : Option Matrix) (row col : Int) (value : ℚ) (err : String) :
    Option Matrix × String :=
  match h with
  | some m =>
      match m.set? row col value with
      | some m2 => (some m2, err)
      | none => (some m, vectorAtMessage)
  | none => (none, err)

/-- C boundary matrix_rows: 0 sentinel on a null handle. -/
def matrix_rows (h : Option Matrix) (err : String) : Int × String :=
  ((match h with | some m => (m.rows : Int) | none => 0), err)

/-- C boundary matrix_cols: 0 sentinel on a null handle. -/
def matrix_cols (h : Option Matrix) (err : String) : Int × String :=
  ((match h with | some m => (m.cols : Int) | none => 0), err)

/-- C boundary matrix_multiply: null operand yields the null handle with the
error channel untouched; the shape-mismatch throw of Matrix::multiply is
caught here, recording its message and returning the null handle. -/
def matrix_multiply (a b : Option Matrix) (err : String) : Option Matrix × String :=
  match a, b with
  | some A, some B =>
      match A.multiply B with
      | some C => (some C, err)
      | none => (none, matrixMismatchMessage)
  | _, _ => (none, err)

/-- C boundary matrix_transpose: null handle yields the null handle; the
transpose itself cannot fail. -/
def matrix_transpose (h : Option Matrix) (err : String) : Option Matrix × String :=
  match h with
  | some m => (some m.transpose, err)
  | none => (none, err)

/-- C boundary safe_matrix_multiply: null operand or null out-pointer gives
CPP_NULL_POINTER without writing the out-parameter; a shape mismatch gives
CPP_INVALID_OPERATION, records the message and leaves the out-parameter
unwritten (its Option stays none); on success the product is written
through the out-parameter and the error channel is untouched. -/
def safe_matrix_multiply (a b : Option Matrix) (resultPtr : Bool) (err : String) :
    CppResultCode × Option Matrix × String :=
  match a, b with
  | some A, some B =>
      if resultPtr then
        match A.multiply B with
        | some C => (.CPP_SUCCESS, some C, err)
        | none => (.CPP_INVALID_OPERATION, none, matrixMismatchMessage)
      else (.CPP_NULL_POINTER, none, err)
  | _, _ => (.CPP_NULL_POINTER, none, err)

/-
Helper lemmas about list-comprehension style grids.
-/

lemma getD_map_range {α : Type} (n : Nat) (f : Nat → α) (d : α) (i : Nat) (hi : i < n) :
    ((List.range n).map f).getD i d = f i := by
  rw [List.getD_eq_getElem?_getD, List.getElem?_map, List.getElem?_range hi]
  rfl

lemma foldl_range_add (g : Nat → ℚ) :
    ∀ (n : Nat) (a : ℚ),
      (List.range n).foldl (fun s k => s + g k) a = a + ∑ t ∈ Finset.range n, g t := by
  intro n
  induction n with
  | zero => intro a; simp
  | succ m ih =>
      intro a
      rw [List.range_succ, List.foldl_append]
      simp only [List.foldl_cons, List.foldl_nil]
      rw [ih, Finset.sum_range_succ, add_assoc]

lemma mulData_length (a b : Matrix) : (mulData a b).length = a.rows := by
  simp [mulData]

lemma mulData_row_length (a b : Matrix) :
    ∀ row ∈ mulData a b, row.length = b.cols := by
  intro row hrow
  simp only [mulData, List.mem_map, List.mem_range] at hrow
  obtain ⟨i, _, rfl⟩ := hrow
  simp

lemma mulData_entry (a b : Matrix) (i j : Nat) (hi : i < a.rows) (hj : j < b.cols) :
    ((mulData a b).getD i []).getD j 0 =
      ∑ t ∈ Finset.range a.cols, a.entry i t * b.entry t j := by
  unfold mulData
  rw [getD_map_range a.rows _ _ i hi, getD_map_range b.cols _ _ j hj,
    foldl_range_add, zero_add]

lemma transData_length (m : Matrix) : (transData m).length = m.cols := by
  simp [transData]

lemma transData_row_length (m : Matrix) :
    ∀ row ∈ transData m, row.length = m.rows := by
  intro row hrow
  simp only [transData, List.mem_map, List.mem_range] at hrow
  obtain ⟨j, _, rfl⟩ := hrow
  simp

lemma transpose_entry (m : Matrix) (i j : Nat) (hi : i < m.rows) (hj : j < m.cols) :
    m.transpose.entry j i = m.entry i j := by
  show ((transData m).getD j []).getD i 0 = m.entry i j
  unfold transData
  rw [getD_map_range m.cols _ _ j hj, getD_map_range m.rows _ _ i hi]

/-- C1: for matrices A (m x k) and B (k x n) with A.cols = B.rows,
Matrix::multiply succeeds, the result has shape m x n, is well formed, every
cell (i, j) is the dot-product sum over t of A[i,t] * B[t,j], and the C
boundary matrix_multiply hands the same product back without touching the
error channel. -/
theorem multiply_spec (A B : Matrix) (hA : A.WF) (hB : B.WF) (h : A.cols = B.rows) :
    ∃ C, A.multiply B = some C ∧ C.rows = A.rows ∧ C.cols = B.cols ∧ C.WF ∧
      (∀ i j, i < A.rows → j < B.cols →
        C.entry i j = ∑ t ∈ Finset.range A.cols, A.entry i t * B.entry t j) ∧
      (∀ err, matrix_multiply (some A) (some B) err = (some C, err)) := by
  have hmul : A.multiply B = some { rows := A.rows, cols := B.cols, data := mulData A B } := by
    unfold Matrix.multiply
    rw [if_neg (not_not_intro h)]
  refine ⟨_, hmul, rfl, rfl, ⟨mulData_length A B, mulData_row_length A B⟩, ?_, ?_⟩
  · intro i j hi hj
    exact mulData_entry A B i j hi hj
  · intro err
    simp [matrix_multiply, hmul]

/-- Witness for C1 at the concrete pair A = [[1, 2]] (1 x 2) and
B = [[3], [4]] (2 x 1). -/
theorem multiply_spec_witness :
    ∃ C, Matrix.multiply (Matrix.mk 1 2 [[1, 2]]) (Matrix.mk 2 1 [[3], [4]]) = some C ∧
      C.rows = 1 ∧ C.cols = 1 ∧ C.WF ∧
      (∀ i j, i < 1 → j < 1 →
        C.entry i j = ∑ t ∈ Finset.range 2,
          (Matrix.mk 1 2 [[1, 2]]).entry i t * (Matrix.mk 2 1 [[3], [4]]).entry t j) ∧
      (∀ err, matrix_multiply (some (Matrix.mk 1 2 [[1, 2]])) (some (Matrix.mk 2 1 [[3], [4]])) err
        = (some C, err)) :=
  multiply_spec (Matrix.mk 1 2 [[1, 2]]) (Matrix.mk 2 1 [[3], [4]])
    (by decide) (by decide) rfl

/-- C4: transposition facts.  For a well-formed matrix A the transpose has
shape A.cols x A.rows with result[j, i] = A[i, j], is itself well formed,
transposing twice restores the shape and every cell of A, and the C
boundary matrix_transpose always succeeds, leaving the error channel
untouched. -/
theorem transpose_spec (A : Matrix) (hA : A.WF) :
    A.transpose.rows = A.cols ∧ A.transpose.cols = A.rows ∧ A.transpose.WF ∧
    (∀ i j, i < A.rows → j < A.cols → A.transpose.entry j i = A.entry i j) ∧
    A.transpose.transpose.rows = A.rows ∧ A.transpose.transpose.cols = A.cols ∧
    (∀ i j, i < A.rows → j < A.cols → A.transpose.transpose.entry i j = A.entry i j) ∧
    (∀ err, matrix_transpose (some A) err = (some A.transpose, err)) := by
  refine ⟨rfl, rfl, ⟨transData_length A, transData_row_length A⟩, ?_, rfl, rfl, ?_, ?_⟩
  · intro i j hi hj
    exact transpose_entry A i j hi hj
  · intro i j hi hj
    have h1 : A.transpose.transpose.entry i j = A.transpose.entry j i :=
      transpose_entry A.transpose j i hj hi
    rw [h1, transpose_entry A i j hi hj]
  · intro err
    rfl

/-- Witness for C4 at the concrete matrix [[1, 2], [3, 4], [5, 6]]. -/
theorem transpose_spec_witness :
    (Matrix.mk 3 2 [[1, 2], [3, 4], [5, 6]]).transpose.rows = 2 ∧
    (Matrix.mk 3 2 [[1, 2], [3, 4], [5, 6]]).transpose.cols = 3 ∧
    (Matrix.mk 3 2 [[1, 2], [3, 4], [5, 6]]).transpose.WF ∧
    (∀ i j, i < 3 → j < 2 →
      (Matrix.mk 3 2 [[1, 2], [3, 4], [5, 6]]).transpose.entry j i =
        (Matrix.mk 3 2 [[1, 2], [3, 4], [5, 6]]).entry i j) ∧
    (Matrix.mk 3 2 [[1, 2], [3, 4], [5, 6]]).transpose.transpose.rows = 3 ∧
    (Matrix.mk 3 2 [[1, 2], [3, 4], [5, 6]]).transpose.transpose.cols = 2 ∧
    (∀ i j, i < 3 → j < 2 →
      (Matrix.mk 3 2 [[1, 2], [3, 4], [5, 6]]).transpose.transpose.entry i j =
        (Matrix.mk 3 2 [[1, 2], [3, 4], [5, 6]]).entry i j) ∧
    (∀ err, matrix_transpose (some (Matrix.mk 3 2 [[1, 2], [3, 4], [5, 6]])) err =
      (some (Matrix.mk 3 2 [[1, 2], [3, 4], [5, 6]]).transpose, err)) :=
  transpose_spec (Matrix.mk 3 2 [[1, 2], [3, 4], [5, 6]]) (by decide)

/-
The iterator resource: IteratorWrapper holds a snapshot copy of the source
array and a cursor, modelled as an index into the list (the std vector
iterator current, with data.begin() at index 0 and data.end() at index
data.length).
-/

/-- IteratorWrapper: snapshot list plus cursor index. -/
structure IteratorWrapper where
  data : List Int
  current : Nat
deriving DecidableEq, Repr

/-- IteratorWrapper constructor: copies the array and places the cursor at
the beginning. -/
def IteratorWrapper.create (array : List Int) : IteratorWrapper :=
  { data := array, current := 0 }

/-- IteratorWrapper::has_next: the cursor has not reached data.end(). -/
def IteratorWrapper.has_next (it : IteratorWrapper) : Bool :=
  decide (it.current < it.data.length)

/-- IteratorWrapper::next: returns the element under the cursor and
advances it; past the end it returns 0 and leaves the cursor alone. -/
def IteratorWrapper.next (it : IteratorWrapper) : Int × IteratorWrapper :=
  if it.has_next then
    (it.data.getD it.current 0, { it with current := it.current + 1 })
  else (0, it)

/-- IteratorWrapper::reset: the cursor goes back to data.begin(). -/
def IteratorWrapper.reset (it : IteratorWrapper) : IteratorWrapper :=
  { it with current := 0 }

/-- IteratorWrapper::find: std::find locates the first element equal to
value; on a hit the cursor moves to that element and the call returns true,
on a miss the cursor is unchanged and the call returns false. -/
def IteratorWrapper.find (it : IteratorWrapper) (value : Int) : Bool × IteratorWrapper :=
  match it.data.findIdx? (fun x => x == value) with
  | some i => (true, { it with current := i })
  | none => (false, it)

/-- C boundary iterator_create (allocation failure not modelled). -/
def iterator_create (array : List Int) (err : String) : Option IteratorWrapper × String :=
  (some (IteratorWrapper.create array), err)

/-- C boundary iterator_has_next: 0 on a null handle. -/
def iterator_has_next (h : Option IteratorWrapper) (err : String) : Int × String :=
  ((match h with
    | some it => if it.has_next then 1 else 0
    | none => 0), err)

/-- C boundary iterator_next: 0 sentinel on a null handle, otherwise the
value produced by IteratorWrapper::next together with the advanced
iterator. -/
def iterator_next (h : Option IteratorWrapper) (err : String) :
    Int × Option IteratorWrapper × String :=
  match h with
  | some it => ((it.next).1, some (it.next).2, err)
  | none => (0, none, err)

/-- C boundary iterator_reset: no-op on a null handle. -/
def iterator_reset (h : Option IteratorWrapper) (err : String) :
    Option IteratorWrapper × String :=
  match h with
  | some it => (some it.reset, err)
  | none => (none, err)

/-- C boundary iterator_find: 0 on a null handle, otherwise 1 or 0 as
IteratorWrapper::find reports, together with the repositioned iterator. -/
def iterator_find (h : Option IteratorWrapper) (value : Int) (err : String) :
    Int × Option IteratorWrapper × String :=
  match h with
  | some it =>
      ((if (it.find value).1 then 1 else 0), some (it.find value).2, err)
  | none => (0, none, err)

/-- The C3 scenario: build the iterator over [5, 7, 9], reset it, then call
iterator_find with 7; the scenario value is the triple returned by
iterator_find. -/
def findScenario : Int × Option IteratorWrapper × String :=
  iterator_find (iterator_reset (iterator_create [5, 7, 9] "").1 "").1 7 ""

/-- C3 counterexample: in the [5, 7, 9] scenario, iterator_find(7) does
report found, but the immediately following iterator_next yields 7 (the
found element itself), not 9 as claimed. -/
theorem find_then_next_counterexample :
    ¬ (findScenario.1 = 1 ∧ (iterator_next findScenario.2.1 "").1 = 9) := by
  decide

/-- C3 amended: iterator_find(7) from the freshly reset iterator over
[5, 7, 9] returns found (1) and repositions the cursor at the found
element, so the immediately following iterator_next yields 7 and the call
after that yields 9. -/
theorem find_then_next_spec :
    findScenario.1 = 1 ∧
    (iterator_next findScenario.2.1 "").1 = 7 ∧
    (iterator_next (iterator_next findScenario.2.1 "").2.1 "").1 = 9 := by
  decide

/-
The vector resource: VectorWrapper owns a std vector of int, modelled as a
List Int.
-/

/-- Checked element access data.at(index) of VectorWrapper::get: a negative
index (converted to an enormous size_t) or an index at or past the size
makes at throw std::out_of_range, modelled as none. -/
def VectorWrapper.get? (data : List Int) (index : Int) : Option Int :=
  if 0 ≤ index then data[index.toNat]? else none

/-- C boundary vector_create (allocation failure not modelled): a fresh
empty vector. -/
def vector_create (err : String) : Option (List Int) × String :=
  (some [], err)

/-- C boundary vector_add: push_back, no-op on a null handle. -/
def vector_add (h : Option (List Int)) (value : Int) (err : String) :
    Option (List Int) × String :=
  match h with
  | some data => (some (data ++ [value]), err)
  | none => (none, err)

/-- C boundary vector_get: 0 sentinel on a null handle with the error
channel untouched; an out-of-range index is caught, returning 0 and
recording the message. -/
def vector_get (h : Option (List Int)) (index : Int) (err : String) : Int × String :=
  match h with
  | some data =>
      match VectorWrapper.get? data index with
      | some v => (v, err)
      | none => (0, vectorAtMessage)
  | none => (0, err)

/-- C boundary vector_size: 0 sentinel on a null handle. -/
def vector_size (h : Option (List Int)) (err : String) : Int × String :=
  ((match h with | some data => (data.length : Int) | none => 0), err)

/-- C boundary vector_clear: no-op on a null handle. -/
def vector_clear (h : Option (List Int)) (err : String) : Option (List Int) × String :=
  match h with
  | some _ => (some [], err)
  | none => (none, err)

/-- C boundary vector_sum: std::accumulate from 0, 0 sentinel on a null
handle. -/
def vector_sum (h : Option (List Int)) (err : String) : Int × String :=
  ((match h with | some data => data.foldl (· + ·) 0 | none => 0), err)

/-- C boundary vector_sort: ascending std::sort (any correct comparison
sort agrees on integers with the ascending order), no-op on a null
handle. -/
def vector_sort (h : Option (List Int)) (err : String) : Option (List Int) × String :=
  match h with
  | some data => (some (data.mergeSort (fun a b => a ≤ b)), err)
  | none => (none, err)

/-- C boundary safe_vector_get: null handle or null out-pointer gives
CPP_NULL_POINTER without writing the out-parameter; an out-of-range index
gives CPP_OUT_OF_BOUNDS, records the message of the std::out_of_range and
leaves the out-parameter unwritten (its Option stays none); on success the
element is written through the out-parameter and the error channel is
untouched. -/
def safe_vector_get (h : Option (List Int)) (index : Int) (resultPtr : Bool) (err : String) :
    CppResultCode × Option Int × String :=
  match h with
  | some data =>
      if resultPtr then
        match VectorWrapper.get? data index with
        | some v => (.CPP_SUCCESS, some v, err)
        | none => (.CPP_OUT_OF_BOUNDS, none, vectorAtMessage)
      else (.CPP_NULL_POINTER, none, err)
  | none => (.CPP_NULL_POINTER, none, err)

lemma VectorWrapper_get_out_of_range (data : List Int) (index : Int)
    (h : index < 0 ∨ (data.length : Int) ≤ index) :
    VectorWrapper.get? data index = none := by
  unfold VectorWrapper.get?
  by_cases h0 : 0 ≤ index
  · rw [if_pos h0, List.getElem?_eq_none]
    omega
  · rw [if_neg h0]

/-- C5: safe_vector_get on a non-null vector with an index outside
[0, size) returns CPP_OUT_OF_BOUNDS (integer value -2), leaves the
out-parameter unwritten, records the exception message and that message,
read back through get_last_error_message, is non-empty. -/
theorem safe_vector_get_out_of_bounds (data : List Int) (index : Int) (err : String)
    (h : index < 0 ∨ (data.length : Int) ≤ index) :
    safe_vector_get (some data) index true err =
      (.CPP_OUT_OF_BOUNDS, none, vectorAtMessage) ∧
    CppResultCode.CPP_OUT_OF_BOUNDS.toInt = -2 ∧
    get_last_error_message vectorAtMessage ≠ "" := by
  refine ⟨?_, rfl, by decide⟩
  simp [safe_vector_get, VectorWrapper_get_out_of_range data index h]

/-- Witness for C5: index 5 of the 2-element vector [10, 20]. -/
theorem safe_vector_get_out_of_bounds_witness :
    safe_vector_get (some [10, 20]) 5 true "old" =
      (.CPP_OUT_OF_BOUNDS, none, vectorAtMessage) ∧
    CppResultCode.CPP_OUT_OF_BOUNDS.toInt = -2 ∧
    get_last_error_message vectorAtMessage ≠ "" :=
  safe_vector_get_out_of_bounds [10, 20] 5 "old" (Or.inr (by decide))

/-- C2: multiplying matrices with mismatched inner dimensions
(A.cols different from B.rows) makes safe_matrix_multiply return
CPP_INVALID_OPERATION (integer value -3) with the out-parameter unwritten,
makes matrix_multiply return the null handle, and both record the non-empty
invalid_argument message in the error channel; both functions are total, so
no exception escapes the boundary. -/
theorem matrix_multiply_mismatch (A B : Matrix) (err : String) (h : A.cols ≠ B.rows) :
    safe_matrix_multiply (some A) (some B) true err =
      (.CPP_INVALID_OPERATION, none, matrixMismatchMessage) ∧
    matrix_multiply (some A) (some B) err = (none, matrixMismatchMessage) ∧
    CppResultCode.CPP_INVALID_OPERATION.toInt = -3 ∧
    matrixMismatchMessage ≠ "" := by
  have hm : A.multiply B = none := by
    unfold Matrix.multiply
    rw [if_pos h]
  refine ⟨?_, ?_, rfl, by decide⟩
  · simp [safe_matrix_multiply, hm]
  · simp [matrix_multiply, hm]

/-- Witness for C2: a 1 x 2 matrix times a 3 x 1 matrix. -/
theorem matrix_multiply_mismatch_witness :
    safe_matrix_multiply (some (Matrix.create 1 2)) (some (Matrix.create 3 1)) true "old" =
      (.CPP_INVALID_OPERATION, none, matrixMismatchMessage) ∧
    matrix_multiply (some (Matrix.create 1 2)) (some (Matrix.create 3 1)) "old" =
      (none, matrixMismatchMessage) ∧
    CppResultCode.CPP_INVALID_OPERATION.toInt = -3 ∧
    matrixMismatchMessage ≠ "" :=
  matrix_multiply_mismatch (Matrix.create 1 2) (Matrix.create 3 1) "old" (by decide)

/-
The text resource: StringWrapper owns a std string, modelled as a Lean
String over its character list (single-byte characters; the case maps below
are the C locale single-byte maps applied by ::toupper and ::tolower).
-/

/-- Single-byte C locale toupper on one character. -/
def cToUpper (c : Char) : Char :=
  if 97 ≤ c.toNat ∧ c.toNat ≤ 122 then Char.ofNat (c.toNat - 32) else c

/-- Single-byte C locale tolower on one character. -/
def cToLower (c : Char) : Char :=
  if 65 ≤ c.toNat ∧ c.toNat ≤ 90 then Char.ofNat (c.toNat + 32) else c

/-- C boundary string_create: a null initial value is replaced by the empty
string (allocation failure not modelled). -/
def string_create (initial : Option String) (err : String) : Option String × String :=
  (some (initial.getD ""), err)

/-- C boundary string_get_cstr: empty-string sentinel on a null handle. -/
def string_get_cstr (h : Option String) (err : String) : String × String :=
  (h.getD "", err)

/-- C boundary string_append: no-op when the handle or the text pointer is
null. -/
def string_append (h : Option String) (text : Option String) (err : String) :
    Option String × String :=
  match h, text with
  | some s, some t => (some (s ++ t), err)
  | some s, none => (some s, err)
  | none, _ => (none, err)

/-- C boundary string_prepend: no-op when the handle or the text pointer is
null. -/
def string_prepend (h : Option String) (text : Option String) (err : String) :
    Option String × String :=
  match h, text with
  | some s, some t => (some (t ++ s), err)
  | some s, none => (some s, err)
  | none, _ => (none, err)

/-- C boundary string_length_cpp: 0 sentinel on a null handle. -/
def string_length_cpp (h : Option String) (err : String) : Int × String :=
  ((match h with | some s => (s.length : Int) | none => 0), err)

/-- C boundary string_reverse: in-place std::reverse, no-op on a null
handle. -/
def string_reverse (h : Option String) (err : String) : Option String × String :=
  match h with
  | some s => (some (String.mk s.data.reverse), err)
  | none => (none, err)

/-- C boundary string_to_upper: std::transform with ::toupper, no-op on a
null handle. -/
def string_to_upper (h : Option String) (err : String) : Option String × String :=
  match h with
  | some s => (some (String.mk (s.data.map cToUpper)), err)
  | none => (none, err)

/-- C boundary string_to_lower: std::transform with ::tolower, no-op on a
null handle. -/
def string_to_lower (h : Option String) (err : String) : Option String × String :=
  match h with
  | some s => (some (String.mk (s.data.map cToLower)), err)
  | none => (none, err)

/-
The fixed-size numeric buffer: SmartResource owns a heap array of doubles
of fixed size, zero-initialized by the constructor; the model merges the
size_ field with the list length (the constructor establishes this and no
operation changes the length).
-/

/-- SmartResource: the owned buffer contents. -/
structure SmartResource where
  data : List ℚ
deriving DecidableEq, Repr

/-- SmartResource constructor: size zeros. -/
def SmartResource.create (size : Nat) : SmartResource :=
  { data := List.replicate size 0 }

/-- SmartResource::set: writes only when 0 <= index < size, otherwise the
buffer is left untouched and no error is reported. -/
def SmartResource.set (r : SmartResource) (index : Int) (value : ℚ) : SmartResource :=
  if 0 ≤ index ∧ index < (r.data.length : Int) then
    { data := r.data.set index.toNat value }
  else r

/-- SmartResource::get: reads only when 0 <= index < size, otherwise
returns 0.0 and no error is reported. -/
def SmartResource.get (r : SmartResource) (index : Int) : ℚ :=
  if 0 ≤ index ∧ index < (r.data.length : Int) then
    (r.data[index.toNat]?).getD 0
  else 0

/-- C boundary smart_resource_create (allocation failure not modelled). -/
def smart_resource_create (size : Nat) (err : String) : Option SmartResource × String :=
  (some (SmartResource.create size), err)

/-- C boundary smart_resource_use: SmartResource::set, no-op on a null
handle; never touches the error channel. -/
def smart_resource_use (h : Option SmartResource) (index : Int) (value : ℚ) (err : String) :
    Option SmartResource × String :=
  match h with
  | some r => (some (r.set index value), err)
  | none => (none, err)

/-- C boundary smart_resource_get: SmartResource::get, 0.0 sentinel on a
null handle; never touches the error channel. -/
def smart_resource_get (h : Option SmartResource) (index : Int) (err : String) :
    ℚ × String :=
  match h with
  | some r => (r.get index, err)
  | none => (0, err)

/-- C boundary smart_resource_size: 0 sentinel on a null handle. -/
def smart_resource_size (h : Option SmartResource) (err : String) : Int × String :=
  ((match h with | some r => (r.data.length : Int) | none => 0), err)

/-- C7: an index outside [0, size) is silently ignored by the numeric
buffer: smart_resource_get returns 0.0, smart_resource_use returns the
buffer with every cell unchanged, and neither call records anything in the
error channel. -/
theorem smart_resource_out_of_range_spec (r : SmartResource) (index : Int) (value : ℚ)
    (err : String) (h : index < 0 ∨ (r.data.length : Int) ≤ index) :
    smart_resource_get (some r) index err = (0, err) ∧
    smart_resource_use (some r) index value err = (some r, err) := by
  have hcond : ¬ (0 ≤ index ∧ index < (r.data.length : Int)) := by
    rintro ⟨h1, h2⟩
    rcases h with h3 | h3 <;> omega
  constructor
  · simp [smart_resource_get, SmartResource.get, hcond]
  · simp [smart_resource_use, SmartResource.set, hcond]

/-- Witness for C7: index 5 of a 2-cell buffer. -/
theorem smart_resource_out_of_range_spec_witness :
    smart_resource_get (some (SmartResource.create 2)) 5 "old" = (0, "old") ∧
    smart_resource_use (some (SmartResource.create 2)) 5 3 "old" =
      (some (SmartResource.create 2), "old") :=
  smart_resource_out_of_range_spec (SmartResource.create 2) 5 3 "old" (Or.inr (by decide))

/-
The bound-operation resource: a std function of two doubles selected at
creation; the handle owns the bound binary operation itself.  The power
variant applies the floating-point std::pow and is outside the exact
numeric model, so only the add and multiply creators are embedded; the
invocation path is independent of which operation is bound.
-/

/-- C boundary function_create_add. -/
def function_create_add (err : String) : Option (ℚ → ℚ → ℚ) × String :=
  (some (fun a b => a + b), err)

/-- C boundary function_create_multiply. -/
def function_create_multiply (err : String) : Option (ℚ → ℚ → ℚ) × String :=
  (some (fun a b => a * b), err)

/-- C boundary function_call: 0.0 sentinel on a null handle, otherwise the
bound operation applied to the operands. -/
def function_call (h : Option (ℚ → ℚ → ℚ)) (a b : ℚ) (err : String) : ℚ × String :=
  match h with
  | some f => (f a b, err)
  | none => (0, err)

/-
The generic statistics helpers, one template instantiated at double and
float; both instantiations are the same exact-arithmetic function here.
calculate_standard_deviation applies the floating-point std::sqrt and is
outside the exact numeric model; it is not needed by any claim.
-/

/-- calculate_mean_template: 0 for count at most 0, otherwise the
accumulated sum of the first count values divided by count. -/
def calculate_mean_template (values : List ℚ) (count : Int) : ℚ :=
  if count ≤ 0 then 0
  else ((values.take count.toNat).foldl (· + ·) 0) / (count : ℚ)

/-- calculate_variance_template: 0 for count at most 0, otherwise the mean
of the squared deviations from the mean. -/
def calculate_variance_template (values : List ℚ) (count : Int) : ℚ :=
  if count ≤ 0 then 0
  else
    ((values.take count.toNat).foldl
        (fun s v => s + (v - calculate_mean_template values count) *
          (v - calculate_mean_template values count)) 0) / (count : ℚ)

/-- C boundary calculate_mean_double: the double instantiation of the
template; the try/catch never fires (std::accumulate on doubles does not
throw), so the error channel is untouched. -/
def calculate_mean_double (values : List ℚ) (count : Int) (err : String) : ℚ × String :=
  (calculate_mean_template values count, err)

/-- C boundary calculate_mean_float: the float instantiation of the same
template. -/
def calculate_mean_float (values : List ℚ) (count : Int) (err : String) : ℚ × String :=
  (calculate_mean_template values count, err)

/-- C boundary calculate_variance: the double instantiation of the variance
template. -/
def calculate_variance (values : List ℚ) (count : Int) (err : String) : ℚ × String :=
  (calculate_variance_template values count, err)

/-- C9: for an empty input (count at most 0) both mean instantiations and
the variance return exactly 0, and for any single-element input the
variance is exactly 0. -/
theorem statistics_empty_single_spec (values : List ℚ) (count : Int) (x : ℚ)
    (err : String) (h : count ≤ 0) :
    (calculate_mean_double values count err).1 = 0 ∧
    (calculate_mean_float values count err).1 = 0 ∧
    (calculate_variance values count err).1 = 0 ∧
    (calculate_variance [x] 1 err).1 = 0 := by
  refine ⟨?_, ?_, ?_, ?_⟩
  · simp [calculate_mean_double, calculate_mean_template, if_pos h]
  · simp [calculate_mean_float, calculate_mean_template, if_pos h]
  · simp [calculate_variance, calculate_variance_template, if_pos h]
  · have hmean : calculate_mean_template [x] 1 = x := by
      norm_num [calculate_mean_template]
    norm_num [calculate_variance, calculate_variance_template, hmean]

/-- Witness for C9: the empty list with count 0, and the single element
5. -/
theorem statistics_empty_single_spec_witness :
    (calculate_mean_double [] 0 "e").1 = 0 ∧
    (calculate_mean_float [] 0 "e").1 = 0 ∧
    (calculate_variance [] 0 "e").1 = 0 ∧
    (calculate_variance [5] 1 "e").1 = 0 :=
  statistics_empty_single_spec [] 0 5 "e" (by decide)

/-- C10: every in-range cell of a freshly created matrix reads back as 0.0
through the C boundary, before any matrix_set call, and the creation and
the read leave the error channel untouched. -/
theorem matrix_create_zero_spec (rows cols : Nat) (r c : Int) (err err2 : String)
    (hr : 0 ≤ r ∧ r.toNat < rows) (hc : 0 ≤ c ∧ c.toNat < cols) :
    (matrix_create rows cols err).2 = err ∧
    matrix_get (matrix_create rows cols err).1 r c err2 = (0, err2) := by
  refine ⟨rfl, ?_⟩
  have hget : (Matrix.create rows cols).get? r c = some 0 := by
    unfold Matrix.create Matrix.get?
    rw [if_pos ⟨hr.1, hc.1⟩]
    simp only
    rw [List.getElem?_eq_getElem (by simpa using hr.2)]
    simp only [List.getElem_replicate, Option.some_bind]
    rw [List.getElem?_eq_getElem (by simpa using hc.2)]
    simp [List.getElem_replicate]
  simp [matrix_get, matrix_create, hget]

/-- Witness for C10: cell (1, 2) of a fresh 2 x 3 matrix. -/
theorem matrix_create_zero_spec_witness :
    (matrix_create 2 3 "a").2 = "a" ∧
    matrix_get (matrix_create 2 3 "a").1 1 2 "b" = (0, "b") :=
  matrix_create_zero_spec 2 3 1 2 "a" "b" ⟨by decide, by decide⟩ ⟨by decide, by decide⟩

/-- C6: calling any accessor of any resource kind with the null handle
returns its documented fixed sentinel (0 for integer accessors, 0.0 for
double accessors, the empty string for text accessors, the null handle for
handle-producing operations) and leaves the error channel unchanged, and
every mutator called with the null handle is a no-op; none of these calls
consults a resource, so the null handle is never dereferenced. -/
theorem null_handle_spec (value index row col : Int) (q a b : ℚ) (t : Option String)
    (bm : Option Matrix) (err : String) :
    vector_add none value err = (none, err) ∧
    vector_get none index err = (0, err) ∧
    vector_size none err = (0, err) ∧
    vector_clear none err = (none, err) ∧
    vector_sum none err = (0, err) ∧
    vector_sort none err = (none, err) ∧
    string_get_cstr none err = ("", err) ∧
    string_append none t err = (none, err) ∧
    string_prepend none t err = (none, err) ∧
    string_length_cpp none err = (0, err) ∧
    string_reverse none err = (none, err) ∧
    string_to_upper none err = (none, err) ∧
    string_to_lower none err = (none, err) ∧
    matrix_set none row col q err = (none, err) ∧
    matrix_get none row col err = (0, err) ∧
    matrix_rows none err = (0, err) ∧
    matrix_cols none err = (0, err) ∧
    matrix_multiply none bm err = (none, err) ∧
    matrix_multiply bm none err = (none, err) ∧
    matrix_transpose none err = (none, err) ∧
    smart_resource_use none index q err = (none, err) ∧
    smart_resource_get none index err = (0, err) ∧
    smart_resource_size none err = (0, err) ∧
    function_call none a b err = (0, err) ∧
    iterator_has_next none err = (0, err) ∧
    iterator_next none err = (0, none, err) ∧
    iterator_reset none err = (none, err) ∧
    iterator_find none value err = (0, none, err) := by
  refine ⟨rfl, rfl, rfl, rfl, rfl, rfl, rfl, rfl, rfl, rfl, rfl, rfl, rfl, rfl, rfl,
    rfl, rfl, rfl, ?_, rfl, rfl, rfl, rfl, rfl, rfl, rfl, rfl, rfl⟩
  cases bm <;> rfl

/-- C8: a boundary operation that completes without an internal failure
leaves the error channel exactly as it found it; failure is the only thing
that ever writes the channel.  For the code-returning safe variants success
is CPP_SUCCESS; for the sentinel variants success is the inner operation
returning a value; the remaining operations cannot fail at all and preserve
the channel unconditionally. -/
theorem success_preserves_error_state :
    (∀ h i p err, (safe_vector_get h i p err).1 = CppResultCode.CPP_SUCCESS →
        (safe_vector_get h i p err).2.2 = err) ∧
    (∀ a b p err, (safe_matrix_multiply a b p err).1 = CppResultCode.CPP_SUCCESS →
        (safe_matrix_multiply a b p err).2.2 = err) ∧
    (∀ d i err, (VectorWrapper.get? d i).isSome → (vector_get (some d) i err).2 = err) ∧
    (∀ m r c err, (Matrix.get? m r c).isSome → (matrix_get (some m) r c err).2 = err) ∧
    (∀ m r c v err, (Matrix.set? m r c v).isSome → (matrix_set (some m) r c v err).2 = err) ∧
    (∀ A B err, (Matrix.multiply A B).isSome →
        (matrix_multiply (some A) (some B) err).2 = err) ∧
    (∀ h err, (matrix_transpose h err).2 = err) ∧
    (∀ rows cols err, (matrix_create rows cols err).2 = err) ∧
    (∀ err, (vector_create err).2 = err) ∧
    (∀ h v err, (vector_add h v err).2 = err) ∧
    (∀ h err, (vector_size h err).2 = err) ∧
    (∀ h err, (vector_sum h err).2 = err) ∧
    (∀ h err, (vector_clear h err).2 = err) ∧
    (∀ h err, (vector_sort h err).2 = err) ∧
    (∀ s err, (string_create s err).2 = err) ∧
    (∀ h t err, (string_append h t err).2 = err) ∧
    (∀ h t err, (string_prepend h t err).2 = err) ∧
    (∀ h err, (string_get_cstr h err).2 = err) ∧
    (∀ h err, (string_length_cpp h err).2 = err) ∧
    (∀ h err, (string_reverse h err).2 = err) ∧
    (∀ h err, (string_to_upper h err).2 = err) ∧
    (∀ h err, (string_to_lower h err).2 = err) ∧
    (∀ n err, (smart_resource_create n err).2 = err) ∧
    (∀ h i v err, (smart_resource_use h i v err).2 = err) ∧
    (∀ h i err, (smart_resource_get h i err).2 = err) ∧
    (∀ h err, (smart_resource_size h err).2 = err) ∧
    (∀ err, (function_create_add err).2 = err) ∧
    (∀ err, (function_create_multiply err).2 = err) ∧
    (∀ h a b err, (function_call h a b err).2 = err) ∧
    (∀ l err, (iterator_create l err).2 = err) ∧
    (∀ h err, (iterator_has_next h err).2 = err) ∧
    (∀ h err, (iterator_next h err).2.2 = err) ∧
    (∀ h err, (iterator_reset h err).2 = err) ∧
    (∀ h v err, (iterator_find h v err).2.2 = err) ∧
    (∀ vs n err, (calculate_mean_double vs n err).2 = err) ∧
    (∀ vs n err, (calculate_mean_float vs n err).2 = err) ∧
    (∀ vs n err, (calculate_variance vs n err).2 = err) := by
  refine ⟨?_, ?_, ?_, ?_, ?_, ?_, ?_, ?_, ?_, ?_, ?_, ?_, ?_, ?_, ?_, ?_, ?_, ?_,
    ?_, ?_, ?_, ?_, ?_, ?_, ?_, ?_, ?_, ?_, ?_, ?_, ?_, ?_, ?_, ?_, ?_, ?_, ?_⟩
  · intro h i p err hc
    cases h with
    | none => simp [safe_vector_get] at hc
    | some d =>
        cases p with
        | false => simp [safe_vector_get] at hc
        | true =>
            cases hv : VectorWrapper.get? d i with
            | none => simp [safe_vector_get, hv] at hc
            | some v => simp [safe_vector_get, hv]
  · intro a b p err hc
    cases a with
    | none => simp [safe_matrix_multiply] at hc
    | some A =>
        cases b with
        | none => simp [safe_matrix_multiply] at hc
        | some B =>
            cases p with
            | false => simp [safe_matrix_multiply] at hc
            | true =>
                cases hv : Matrix.multiply A B with
                | none => simp [safe_matrix_multiply, hv] at hc
                | some C => simp [safe_matrix_multiply, hv]
  · intro d i err hs
    cases hv : VectorWrapper.get? d i with
    | none => rw [hv] at hs; simp at hs
    | some v => simp [vector_get, hv]
  · intro m r c err hs
    cases hv : Matrix.get? m r c with
    | none => rw [hv] at hs; simp at hs
    | some v => simp [matrix_get, hv]
  · intro m r c v err hs
    cases hv : Matrix.set? m r c v with
    | none => rw [hv] at hs; simp at hs
    | some m2 => simp [matrix_set, hv]
  · intro A B err hs
    cases hv : Matrix.multiply A B with
    | none => rw [hv] at hs; simp at hs
    | some C => simp [matrix_multiply, hv]
  · intro h err; cases h <;> rfl
  · intro rows cols err; rfl
  · intro err; rfl
  · intro h v err; cases h <;> rfl
  · intro h err; rfl
  · intro h err; rfl
  · intro h err; cases h <;> rfl
  · intro h err; cases h <;> rfl
  · intro s err; rfl
  · intro h t err; cases h <;> cases t <;> rfl
  · intro h t err; cases h <;> cases t <;> rfl
  · intro h err; rfl
  · intro h err; rfl
  · intro h err; cases h <;> rfl
  · intro h err; cases h <;> rfl
  · intro h err; cases h <;> rfl
  · intro n err; rfl
  · intro h i v err; cases h <;> rfl
  · intro h i err; cases h <;> rfl
  · intro h err; rfl
  · intro err; rfl
  · intro err; rfl
  · intro h a b err; cases h <;> rfl
  · intro l err; rfl
  · intro h err; rfl
  · intro h err; cases h <;> rfl
  · intro h err; cases h <;> rfl
  · intro h v err; cases h <;> rfl
  · intro vs n err; rfl
  · intro vs n err; rfl
  · intro vs n err; rfl

/-- Witness for C8: the fallible conjuncts applied at concrete successful
calls, each leaving the error channel at its previous content. -/
theorem success_preserves_error_state_witness :
    (safe_vector_get (some [4, 5]) 1 true "prev").2.2 = "prev" ∧
    (safe_matrix_multiply (some (Matrix.create 1 2)) (some (Matrix.create 2 1)) true
      "prev").2.2 = "prev" ∧
    (vector_get (some [4, 5]) 0 "prev").2 = "prev" ∧
    (matrix_get (some (Matrix.create 2 2)) 1 1 "prev").2 = "prev" ∧
    (matrix_set (some (Matrix.create 2 2)) 1 1 7 "prev").2 = "prev" ∧
    (matrix_multiply (some (Matrix.create 2 3)) (some (Matrix.create 3 1)) "prev").2 =
      "prev" :=
  ⟨success_preserves_error_state.1 (some [4, 5]) 1 true "prev" rfl,
   success_preserves_error_state.2.1 (some (Matrix.create 1 2)) (some (Matrix.create 2 1))
     true "prev" rfl,
   success_preserves_error_state.2.2.1 [4, 5] 0 "prev" rfl,
   success_preserves_error_state.2.2.2.1 (Matrix.create 2 2) 1 1 "prev" rfl,
   success_preserves_error_state.2.2.2.2.1 (Matrix.create 2 2) 1 1 7 "prev" rfl,
   success_preserves_error_state.2.2.2.2.2.1 (Matrix.create 2 3) (Matrix.create 3 1)
     "prev" rfl⟩

end CppInterop
